import Mathlib

/-!
Shallow embedding of `src/Canvas2d/babylon.canvas2dLayoutEngine.ts`.

The TypeScript module defines a base layout-engine class and three concrete
layout strategies (canvas, stack panel, grid panel) operating on primitive
nodes of a 2D scene graph.  JavaScript numbers are modelled as integers
(the claims only involve addition, maximum and equality of whole-number
quantities, which the float program computes exactly), JavaScript strings as
lists of characters, in-place mutation as functional record update, and a
JavaScript exception escaping a method as an explicit error component in
the method's result.
-/

/-! ## JavaScript string primitives (external builtins used by the source) -/

/-- Whitespace predicate used by the JavaScript `trim` builtin (ASCII part). -/
def jsIsSpace (c : Char) : Bool :=
  c = ' ' || c = '\t' || c = '\n' || c = '\r' || c = '\x0b' || c = '\x0c'

/-- Models `String.prototype.toLocaleLowerCase` on ASCII text: lower-cases
each character. -/
def jsLower (l : List Char) : List Char := l.map Char.toLower

/-- Models `String.prototype.trim`: removes leading and trailing whitespace. -/
def jsTrim (l : List Char) : List Char :=
  (((l.dropWhile jsIsSpace).reverse).dropWhile jsIsSpace).reverse

/-- Accumulator loop reading a maximal run of decimal digits; returns the
value, the number of digits consumed, and the rest of the input. -/
def readDigitsAux : Nat → Nat → List Char → Nat × Nat × List Char
  | v, n, [] => (v, n, [])
  | v, n, c :: r =>
    if '0' ≤ c ∧ c ≤ '9' then readDigitsAux (10 * v + (c.toNat - 48)) (n + 1) r
    else (v, n, c :: r)

/-- Reads a maximal run of decimal digits from the front of the input. -/
def readDigits (l : List Char) : Nat × Nat × List Char := readDigitsAux 0 0 l

/-- Models the external JavaScript `parseFloat` builtin on the integer
decimal literals this module's claims exercise: optional leading
whitespace, optional sign, then decimal digits.  A result of `none` stands
for `NaN` (no parsable digit).  The full builtin also accepts fraction,
exponent and `Infinity` forms; those inputs lie outside the embedded
fragment (every theorem below either fixes integer inputs or does not
depend on the parsed value), just as the numbers of the program are
modelled as integers. -/
def jsParseFloat (s : List Char) : Option Int :=
  let s1 := s.dropWhile jsIsSpace
  let signAndRest : Bool × List Char :=
    match s1 with
    | '-' :: r => (true, r)
    | '+' :: r => (false, r)
    | _ => (false, s1)
  let ipart := readDigits signAndRest.2
  if ipart.2.1 = 0 then none
  else
    let mag : Int := (ipart.1 : Int)
    some (if signAndRest.1 then -mag else mag)

/-- Models `v.indexOf(p) === 0`, i.e. the test that `p` occurs at the very
start of `v`. -/
def strStartsWith : List Char → List Char → Bool
  | [], _ => true
  | _ :: _, [] => false
  | p :: ps, c :: cs => p = c && strStartsWith ps cs

/-- Models JavaScript array indexing `l[i]`: `none` stands for `undefined`
(negative or out-of-range index). -/
def jsIndex {α : Type} (l : List α) (i : Int) : Option α :=
  if i < 0 then none else l.get? i.toNat

/-! ## Sizes, positions, margins (external data types used by the engines) -/

/-- Model of `BABYLON.Size` (a width/height pair). -/
structure Size where
  width : Int
  height : Int
  deriving DecidableEq

/-- Model of `BABYLON.Vector2` (an x/y pair). -/
structure Vector2 where
  x : Int
  y : Int
  deriving DecidableEq

/-- Model of the external margin collaborator: `computeArea(sourceSize,
dstSize)` computes the margin-adjusted area from the primitive's actual
size and writes it into the destination; the out-parameter write is
modelled as the returned `Size`. -/
structure Margin where
  computeArea : Size → Size → Size

/-! ## LayoutEngineBase -/

/-- Model of the external constant `Prim2DBase.sizeProperty.flagId`.  Its
concrete value lives outside this module and no claim depends on it; it is
fixed arbitrarily. -/
def sizePropertyFlagId : Nat := 1

/-- Model of `LayoutEngineBase`: the lock flag and the dirty-mask field.
The field `_isLocked` is never initialized in the source (JavaScript
`undefined`, which is falsy); the constructor model therefore starts it at
`false`. -/
structure LayoutEngineBase where
  layoutDirtyOnPropertyChangedMask : Nat
  _isLocked : Bool
  deriving DecidableEq

/-- Model of the `LayoutEngineBase` constructor: sets
`layoutDirtyOnPropertyChangedMask = 0`; `_isLocked` starts falsy. -/
def LayoutEngineBase.mkNew : LayoutEngineBase :=
  { layoutDirtyOnPropertyChangedMask := 0, _isLocked := false }

/-- Model of `LayoutEngineBase.isLocked()`. -/
def LayoutEngineBase.isLocked (e : LayoutEngineBase) : Bool := e._isLocked

/-- Model of `LayoutEngineBase.lock()`: returns the boolean result together
with the updated instance. -/
def LayoutEngineBase.lock (e : LayoutEngineBase) : Bool × LayoutEngineBase :=
  if e._isLocked then (false, e)
  else (true, { e with _isLocked := true })

/-- Model of the empty base method `LayoutEngineBase.updateLayout(prim)`:
the body is empty, so the node (of whichever shape) is returned unchanged. -/
def LayoutEngineBase.updateLayout {α : Type} (_e : LayoutEngineBase) (prim : α) : α :=
  prim

/-! ## CanvasLayoutEngine

The canvas strategy reads, for the node passed to `updateLayout`, its dirty
flag and its list of children, and for each child (whose `parent` is that
node) the fields consulted by `_doUpdate`.  The model flattens the touched
slice of the tree into a node record with child records.  `prim.owner` is
the `Canvas2D` owning a primitive; the owner is the same canvas for every
child of one node, so its `actualSize` is passed as one argument. -/

/-- Fields of a direct child consulted or written by
`CanvasLayoutEngine._doUpdate`: whether the child is itself a `Canvas2D`
instance, its actual size and its layout area. -/
structure CanvasChild where
  isCanvas : Bool
  actualSize : Size
  layoutArea : Size
  deriving DecidableEq

/-- Fields of the node passed to `CanvasLayoutEngine.updateLayout`: whether
it is a `Canvas2D` instance (it is the `parent` of every child updated),
its actual size, its content area, its layout-dirty flag and its children. -/
structure CanvasNode where
  isCanvas : Bool
  actualSize : Size
  contentArea : Size
  layoutDirty : Bool
  children : List CanvasChild
  deriving DecidableEq

/-- Model of `CanvasLayoutEngine._doUpdate(prim)` for a prim whose `parent`
is `parent` and whose `owner` has actual size `ownerActualSize`:
a `Canvas2D` gets its own `actualSize` as layout area, a direct child of a
`Canvas2D` gets the owner canvas' `actualSize`, and any other prim gets its
parent's `contentArea`. -/
def CanvasLayoutEngine._doUpdate (parent : CanvasNode) (ownerActualSize : Size)
    (prim : CanvasChild) : CanvasChild :=
  if prim.isCanvas then { prim with layoutArea := prim.actualSize }
  else if parent.isCanvas then { prim with layoutArea := ownerActualSize }
  else { prim with layoutArea := parent.contentArea }

/-- Model of `CanvasLayoutEngine.updateLayout(prim)`: when the node is
layout-dirty, update every direct child via `_doUpdate` and clear the flag;
otherwise do nothing. -/
def CanvasLayoutEngine.updateLayout (ownerActualSize : Size) (prim : CanvasNode) :
    CanvasNode :=
  if prim.layoutDirty then
    { prim with
        children := prim.children.map (CanvasLayoutEngine._doUpdate prim ownerActualSize),
        layoutDirty := false }
  else prim

/-! ## StackPanelLayoutEngine -/

/-- Fields of a child consulted or written by
`StackPanelLayoutEngine.updateLayout`. -/
structure StackChild where
  actualSize : Size
  layoutArea : Size
  layoutAreaPos : Vector2
  margin : Margin

/-- Fields of the node passed to `StackPanelLayoutEngine.updateLayout`. -/
structure StackNode where
  layoutDirty : Bool
  children : List StackChild

/-- Model of `StackPanelLayoutEngine`: inherits the base fields and adds
the `_isHorizontal` configuration flag (initialized to `true` by the field
initializer in the source). -/
structure StackPanelLayoutEngine extends LayoutEngineBase where
  _isHorizontal : Bool
  deriving DecidableEq

/-- Model of the `StackPanelLayoutEngine` constructor: `super()` then the
dirty mask is set to `Prim2DBase.sizeProperty.flagId`; `_isHorizontal`
starts at its initializer value `true`. -/
def StackPanelLayoutEngine.mkNew : StackPanelLayoutEngine :=
  { layoutDirtyOnPropertyChangedMask := sizePropertyFlagId,
    _isLocked := false,
    _isHorizontal := true }

/-- Model of the `isHorizontal` getter. -/
def StackPanelLayoutEngine.isHorizontal (e : StackPanelLayoutEngine) : Bool :=
  e._isHorizontal

/-- Model of the `isHorizontal` setter: a locked instance drops the
mutation and returns normally, otherwise the value is stored. -/
def StackPanelLayoutEngine.setIsHorizontal (e : StackPanelLayoutEngine) (val : Bool) :
    StackPanelLayoutEngine :=
  if e.toLayoutEngineBase.isLocked then e
  else { e with _isHorizontal := val }

/-- Lock on a stack engine: inherited `LayoutEngineBase.lock`. -/
def StackPanelLayoutEngine.lock (e : StackPanelLayoutEngine) :
    Bool × StackPanelLayoutEngine :=
  let r := e.toLayoutEngineBase.lock
  (r.1, { e with toLayoutEngineBase := r.2 })

/-- First loop of `StackPanelLayoutEngine.updateLayout`: the call
`child.margin.computeArea(child.actualSize, layoutArea)` writes the
margin-adjusted area into the child's `layoutArea` through the alias. -/
def StackChild.measure (c : StackChild) : StackChild :=
  { c with layoutArea := c.margin.computeArea c.actualSize c.layoutArea }

/-- Second loop of `StackPanelLayoutEngine.updateLayout`: assigns each
child's `layoutAreaPos` from the running cursor `(x, y)`, advances the
cursor along the main axis by the child's extent, and overrides the
cross-axis extent with `m`. -/
def StackPanelLayoutEngine.placeChildren (h : Bool) (m : Int) (x y : Int) :
    List StackChild → List StackChild
  | [] => []
  | c :: rest =>
    let c1 := { c with layoutAreaPos := ⟨x, y⟩ }
    let la := c1.layoutArea
    if h then
      { c1 with layoutArea := ⟨la.width, m⟩ } ::
        StackPanelLayoutEngine.placeChildren h m (x + la.width) y rest
    else
      { c1 with layoutArea := ⟨m, la.height⟩ } ::
        StackPanelLayoutEngine.placeChildren h m x (y + la.height) rest

/-- Model of `StackPanelLayoutEngine.updateLayout(prim)`: when the node is
layout-dirty, run the measure loop (computing the maximum cross-axis
extent, starting from 0) and the placement loop, then clear the flag;
otherwise do nothing. -/
def StackPanelLayoutEngine.updateLayout (e : StackPanelLayoutEngine) (prim : StackNode) :
    StackNode :=
  if prim.layoutDirty then
    let h := e.isHorizontal
    let measured := prim.children.map StackChild.measure
    let m := measured.foldl
      (fun acc c => max acc (if h then c.layoutArea.height else c.layoutArea.width)) 0
    { prim with
        children := StackPanelLayoutEngine.placeChildren h m 0 0 measured,
        layoutDirty := false }
  else prim

/-- Model of the lazily initialized static fields
`StackPanelLayoutEngine._horizontal` / `_vertical` (`none` stands for the
initial `null`). -/
structure StackPanelStatics where
  _horizontal : Option StackPanelLayoutEngine
  _vertical : Option StackPanelLayoutEngine
  deriving DecidableEq

/-- Initial static state: both fields are `null`. -/
def StackPanelStatics.initial : StackPanelStatics := ⟨none, none⟩

/-- Model of the static getter `StackPanelLayoutEngine.Horizontal`: on
first access construct the instance, set `isHorizontal = true`, lock it and
store it; afterwards return the stored instance. -/
def StackPanelLayoutEngine.Horizontal (s : StackPanelStatics) :
    StackPanelLayoutEngine × StackPanelStatics :=
  match s._horizontal with
  | some e => (e, s)
  | none =>
    let e0 := StackPanelLayoutEngine.mkNew
    let e1 := e0.setIsHorizontal true
    let e2 := (e1.lock).2
    (e2, { s with _horizontal := some e2 })

/-- Model of the static getter `StackPanelLayoutEngine.Vertical`: on first
access construct the instance, set `isHorizontal = false`, lock it and
store it; afterwards return the stored instance. -/
def StackPanelLayoutEngine.Vertical (s : StackPanelStatics) :
    StackPanelLayoutEngine × StackPanelStatics :=
  match s._vertical with
  | some e => (e, s)
  | none =>
    let e0 := StackPanelLayoutEngine.mkNew
    let e1 := e0.setIsHorizontal false
    let e2 := (e1.lock).2
    (e2, { s with _vertical := some e2 })

/-! ## GridPanelLayoutEngine -/

/-- Unit-kind constant `GridDimensionDefinition.Pixels`. -/
def GridDimensionDefinition.Pixels : Nat := 1

/-- Unit-kind constant `GridDimensionDefinition.Stars`. -/
def GridDimensionDefinition.Stars : Nat := 2

/-- Unit-kind constant `GridDimensionDefinition.Auto`. -/
def GridDimensionDefinition.Auto : Nat := 3

/-- Result triple passed by `GridDimensionDefinition._parse` to its `res`
callback: the raw value `v`, the resolved pixel value `vp` (each `none`
standing for `null` or an unparsable `NaN`), and the unit kind `t`. -/
structure DimParse where
  v : Option Int
  vp : Option Int
  t : Nat
  deriving DecidableEq

/-- Branch logic of `GridDimensionDefinition._parse` on the already
normalized (lower-cased, trimmed) string: a leading `"auto"` yields the
Auto kind, a string containing `*` parses the part before the first `*` as
a star weight, anything else parses as an absolute pixel length. -/
def GridDimensionDefinition.parseNormalized (v : List Char) : DimParse :=
  if strStartsWith ['a', 'u', 't', 'o'] v then
    ⟨none, none, GridDimensionDefinition.Auto⟩
  else if v.any (fun c => c = '*') then
    ⟨jsParseFloat (v.takeWhile (fun c => ¬ c = '*')), none, GridDimensionDefinition.Stars⟩
  else
    let w := jsParseFloat v
    ⟨w, w, GridDimensionDefinition.Pixels⟩

/-- Model of `GridDimensionDefinition._parse(value, res)`: the input is
lower-cased and trimmed, then dispatched on its shape; the `res` callback
invocation is modelled by returning the argument triple.  `v.substr(0, i)`
for `i` the first index of `*` is the part of `v` before the first `*`. -/
def GridDimensionDefinition._parse (value : List Char) : DimParse :=
  GridDimensionDefinition.parseNormalized (jsTrim (jsLower value))

/-- Model of `RowDefinition`: the parsed fields stored by the row callback
in the `GridPanelLayoutEngine` constructor (rows store their parse result
in width-named fields in the source). -/
structure RowDefinition where
  width : Option Int
  widthPixels : Option Int
  widthType : Nat
  deriving DecidableEq

/-- Model of `ColumnDefinition`: the parsed fields stored by the column
callback in the `GridPanelLayoutEngine` constructor. -/
structure ColumnDefinition where
  height : Option Int
  heightPixels : Option Int
  heightType : Nat
  deriving DecidableEq

/-- Model of `PrimitiveGridInfo` (grid placement data attached to a child
through the external data store). -/
structure PrimitiveGridInfo where
  row : Int
  column : Int
  rowSpan : Int
  columnSpan : Int
  deriving DecidableEq

/-- Model of the `PrimitiveGridInfo` constructor: a `null` span defaults
to 1. -/
def PrimitiveGridInfo.mkNew (row column : Int) (rowSpan columnSpan : Option Int) :
    PrimitiveGridInfo :=
  ⟨row, column, rowSpan.getD 1, columnSpan.getD 1⟩

/-- Model of the empty placeholder class `CellInfo`. -/
structure CellInfo : Type where
  deriving DecidableEq

/-- Model of a JavaScript exception escaping the grid engine: reading
`pgi.row` on a `null` external-data lookup, or indexing with `[pgi.column]`
into an `undefined` row of the cell table. -/
inductive GridError where
  | nullGridData
  | cellRowUndefined
  deriving DecidableEq

/-- Fields of a child consulted by `GridPanelLayoutEngine.updateLayout`:
the `"grid"` entry of its external data store (`none` when absent, in which
case `getExternalData` returns `null`), and its layout fields. -/
structure GridChild where
  externalDataGrid : Option PrimitiveGridInfo
  actualSize : Size
  layoutArea : Size
  layoutAreaPos : Vector2
  deriving DecidableEq

/-- Fields of the node passed to `GridPanelLayoutEngine.updateLayout`. -/
structure GridNode where
  layoutDirty : Bool
  contentArea : Size
  children : List GridChild
  deriving DecidableEq

/-- Model of `GridPanelLayoutEngine`: inherits the base fields and adds the
row/column definitions and the lazily built cell table (`none` stands for
the initial `null`). -/
structure GridPanelLayoutEngine extends LayoutEngineBase where
  _rows : List RowDefinition
  _columns : List ColumnDefinition
  _cells : Option (List (List CellInfo))
  deriving DecidableEq

/-- Model of the `GridPanelLayoutEngine` constructor: `super()`, the dirty
mask is set to `Prim2DBase.sizeProperty.flagId`, `_cells` starts at `null`,
and each row height string and column width string is parsed into a
definition record (rows store their parse in the width-named fields and
columns in the height-named fields, as in the source). -/
def GridPanelLayoutEngine.mkNew (rows : List (List Char)) (columns : List (List Char)) :
    GridPanelLayoutEngine :=
  { layoutDirtyOnPropertyChangedMask := sizePropertyFlagId,
    _isLocked := false,
    _cells := none,
    _rows := rows.map (fun hgt =>
      let p := GridDimensionDefinition._parse hgt
      { width := p.v, widthPixels := p.vp, widthType := p.t }),
    _columns := columns.map (fun wdt =>
      let p := GridDimensionDefinition._parse wdt
      { height := p.v, heightPixels := p.vp, heightType := p.t }) }

/-- Child loop of `GridPanelLayoutEngine._updateCellsList`: for each child,
`getExternalData("grid")` returning `null` makes the subsequent `pgi.row`
read throw, and an `undefined` row of the cell table makes the
`[pgi.column]` indexing throw; the looked-up cell itself is discarded. -/
def GridPanelLayoutEngine.checkGridData (cells : List (List CellInfo)) :
    List GridChild → Option GridError
  | [] => none
  | child :: rest =>
    match child.externalDataGrid with
    | none => some GridError.nullGridData
    | some pgi =>
      match jsIndex cells pgi.row with
      | none => some GridError.cellRowUndefined
      | some _ => GridPanelLayoutEngine.checkGridData cells rest

/-- Model of `GridPanelLayoutEngine._updateCellsList(prim)`: a no-op when
the cell table is already built; otherwise allocate a rows-by-columns table
of fresh `CellInfo` slots (this assignment to `this._cells` happens before
the child loop, so it survives a thrown exception) and run the child loop. -/
def GridPanelLayoutEngine._updateCellsList (e : GridPanelLayoutEngine) (prim : GridNode) :
    GridPanelLayoutEngine × Option GridError :=
  if e._cells.isSome then (e, none)
  else
    let cells := (List.range e._rows.length).map
      (fun _ => (List.range e._columns.length).map (fun _ => CellInfo.mk))
    let e2 := { e with _cells := some cells }
    (e2, GridPanelLayoutEngine.checkGridData cells prim.children)

/-- Model of `GridPanelLayoutEngine._updateConstants(prim)`: sums the star
weights and the pixel totals over the row definitions (Auto rows contribute
their `widthPixels`, with `null` coercing to 0 under addition).  The source
computes these totals and the unused `area` local and then discards them
without writing anything, so the model returns them to its (discarding)
caller. -/
def GridPanelLayoutEngine._updateConstants (e : GridPanelLayoutEngine) (prim : GridNode) :
    Int × Int :=
  let _area := prim.contentArea
  e._rows.foldl
    (fun (acc : Int × Int) row =>
      if row.widthType = GridDimensionDefinition.Stars then
        (acc.1 + (row.width.getD 0), acc.2)
      else if row.widthType = GridDimensionDefinition.Pixels then
        (acc.1, acc.2 + (row.widthPixels.getD 0))
      else if row.widthType = GridDimensionDefinition.Auto then
        (acc.1, acc.2 + (row.widthPixels.getD 0))
      else acc)
    (0, 0)

/-- Model of `GridPanelLayoutEngine.updateLayout(prim)`: when the node is
layout-dirty, build the cell table and compute the constants, then clear
the flag; a thrown exception (third component `some _`) leaves the node
untouched with its flag still set.  The source assigns no child
`layoutArea` or `layoutAreaPos`. -/
def GridPanelLayoutEngine.updateLayout (e : GridPanelLayoutEngine) (prim : GridNode) :
    GridPanelLayoutEngine × GridNode × Option GridError :=
  if prim.layoutDirty then
    match GridPanelLayoutEngine._updateCellsList e prim with
    | (e2, some err) => (e2, prim, some err)
    | (e2, none) =>
      let _ := GridPanelLayoutEngine._updateConstants e2 prim
      (e2, { prim with layoutDirty := false }, none)
  else (e, prim, none)

/-! ## Helper lemmas about the stack placement loop -/

/-- Sum of the `layoutArea` widths of a child list. -/
def sumWidths (cs : List StackChild) : Int :=
  (cs.map (fun c => c.layoutArea.width)).sum

lemma placeChildren_true_length (cs : List StackChild) :
    ∀ (m x y : Int),
      (StackPanelLayoutEngine.placeChildren true m x y cs).length = cs.length := by
  induction cs with
  | nil => intro m x y; rfl
  | cons c rest ih =>
    intro m x y
    simp only [StackPanelLayoutEngine.placeChildren, if_true, List.length_cons, ih]

lemma sumWidths_nil : sumWidths [] = 0 := rfl

lemma sumWidths_take_zero (cs : List StackChild) : sumWidths (cs.take 0) = 0 := rfl

lemma sumWidths_take_succ (cs : List StackChild) :
    ∀ (i : Nat) (hi : i < cs.length),
      sumWidths (cs.take (i + 1)) =
        sumWidths (cs.take i) + (cs.get ⟨i, hi⟩).layoutArea.width := by
  induction cs with
  | nil => intro i hi; exact absurd hi (by simp)
  | cons c rest ih =>
    intro i hi
    cases i with
    | zero => simp [sumWidths]
    | succ j =>
      have hj : j < rest.length := by simpa using hi
      simp only [List.take_succ_cons, List.get_cons_succ]
      have := ih j hj
      simp only [sumWidths, List.map_cons, List.sum_cons] at this ⊢
      rw [this]
      ring

lemma placeChildren_true_cons (m x y : Int) (c : StackChild) (rest : List StackChild) :
    StackPanelLayoutEngine.placeChildren true m x y (c :: rest) =
      { c with layoutAreaPos := ⟨x, y⟩, layoutArea := ⟨c.layoutArea.width, m⟩ } ::
        StackPanelLayoutEngine.placeChildren true m (x + c.layoutArea.width) y rest := by
  rfl

lemma placeChildren_true_get (cs : List StackChild) :
    ∀ (m x y : Int) (i : Nat) (hi : i < cs.length)
      (hi2 : i < (StackPanelLayoutEngine.placeChildren true m x y cs).length),
      (StackPanelLayoutEngine.placeChildren true m x y cs).get ⟨i, hi2⟩ =
        { cs.get ⟨i, hi⟩ with
            layoutAreaPos := ⟨x + sumWidths (cs.take i), y⟩,
            layoutArea := ⟨(cs.get ⟨i, hi⟩).layoutArea.width, m⟩ } := by
  induction cs with
  | nil => intro m x y i hi; exact absurd hi (by simp)
  | cons c rest ih =>
    intro m x y i hi hi2
    cases i with
    | zero =>
      have hhead : (StackPanelLayoutEngine.placeChildren true m x y (c :: rest)).get
          ⟨0, hi2⟩ =
          { c with layoutAreaPos := ⟨x, y⟩, layoutArea := ⟨c.layoutArea.width, m⟩ } := rfl
      rw [hhead]
      simp [sumWidths]
    | succ j =>
      have hj : j < rest.length := by simpa using hi
      have hj2 : j < (StackPanelLayoutEngine.placeChildren true m
          (x + c.layoutArea.width) y rest).length := by
        rw [placeChildren_true_length]; exact hj
      have hstep : (StackPanelLayoutEngine.placeChildren true m x y (c :: rest)).get
          ⟨j + 1, hi2⟩ =
          (StackPanelLayoutEngine.placeChildren true m
            (x + c.layoutArea.width) y rest).get ⟨j, hj2⟩ := rfl
      have hget : (c :: rest).get ⟨j + 1, hi⟩ = rest.get ⟨j, hj⟩ := rfl
      rw [hstep, ih m (x + c.layoutArea.width) y j hj hj2, hget, List.take_succ_cons]
      simp only [sumWidths, List.map_cons, List.sum_cons, add_assoc]

/-! ## Helper lemmas about folded maxima of rationals -/

lemma foldlMax_init_le (l : List Int) : ∀ (a : Int), a ≤ l.foldl max a := by
  induction l with
  | nil => intro a; simp
  | cons q rest ih =>
    intro a
    calc a ≤ max a q := le_max_left _ _
    _ ≤ rest.foldl max (max a q) := ih _

lemma foldlMax_mem_le (l : List Int) : ∀ (a q : Int), q ∈ l → q ≤ l.foldl max a := by
  induction l with
  | nil => intro a q hq; exact absurd hq (by simp)
  | cons q0 rest ih =>
    intro a q hq
    rcases List.mem_cons.mp hq with h | h
    · subst h
      calc q ≤ max a q := le_max_right _ _
      _ ≤ rest.foldl max (max a q) := foldlMax_init_le _ _
    · exact ih _ q h

lemma foldlMax_eq_or_mem (l : List Int) : ∀ (a : Int), l.foldl max a = a ∨ l.foldl max a ∈ l := by
  induction l with
  | nil => intro a; left; rfl
  | cons q0 rest ih =>
    intro a
    rcases ih (max a q0) with h | h
    · rcases max_choice a q0 with h0 | h0
      · left; simpa [h0] using h
      · right; rw [List.foldl_cons, h, h0]; exact List.mem_cons_self _ _
    · right; exact List.mem_cons_of_mem _ h

/-! ## Helper lemmas about the JavaScript string normalization -/

lemma toLower_of_space (c : Char) (h : jsIsSpace c = true) : Char.toLower c = c := by
  simp only [jsIsSpace, Bool.or_eq_true, decide_eq_true_eq] at h
  rcases h with ⟨⟨⟨⟨h | h⟩ | h⟩ | h⟩ | h⟩ | h <;> subst h <;> decide

lemma jsIsSpace_toLower (c : Char) (h : jsIsSpace c = true) :
    jsIsSpace (Char.toLower c) = true := by
  rw [toLower_of_space c h]; exact h

lemma dropWhile_append_all {α : Type} (p : α → Bool) (l m : List α)
    (hl : ∀ c ∈ l, p c = true) : List.dropWhile p (l ++ m) = List.dropWhile p m := by
  induction l with
  | nil => rfl
  | cons a r ih =>
    have ha : p a = true := hl a (List.mem_cons_self _ _)
    simp only [List.cons_append, List.dropWhile_cons, ha, if_true]
    exact ih (fun c hc => hl c (List.mem_cons_of_mem _ hc))

lemma dropWhile_all_nil {α : Type} (p : α → Bool) (l : List α)
    (hl : ∀ c ∈ l, p c = true) : List.dropWhile p l = [] := by
  have := dropWhile_append_all p l [] hl
  simpa using this

lemma dropWhile_append_of_ne_nil {α : Type} (p : α → Bool) (x m : List α)
    (hx : List.dropWhile p x ≠ []) :
    List.dropWhile p (x ++ m) = List.dropWhile p x ++ m := by
  induction x with
  | nil => exact absurd rfl hx
  | cons a r ih =>
    by_cases ha : p a = true
    · have h1 : List.dropWhile p (a :: r) = List.dropWhile p r := by
        rw [List.dropWhile_cons, if_pos ha]
      have h2 : List.dropWhile p ((a :: r) ++ m) = List.dropWhile p (r ++ m) := by
        rw [List.cons_append, List.dropWhile_cons, if_pos ha]
      rw [h1] at hx
      rw [h2, h1]
      exact ih hx
    · have ha2 : p a = false := by simpa using ha
      simp [List.dropWhile_cons, ha2]

lemma dropWhile_append_of_nil {α : Type} (p : α → Bool) (x m : List α)
    (hx : List.dropWhile p x = []) :
    List.dropWhile p (x ++ m) = List.dropWhile p m := by
  induction x with
  | nil => rfl
  | cons a r ih =>
    by_cases ha : p a = true
    · have h1 : List.dropWhile p (a :: r) = List.dropWhile p r := by
        rw [List.dropWhile_cons, if_pos ha]
      have h2 : List.dropWhile p ((a :: r) ++ m) = List.dropWhile p (r ++ m) := by
        rw [List.cons_append, List.dropWhile_cons, if_pos ha]
      rw [h1] at hx
      rw [h2]
      exact ih hx
    · rw [List.dropWhile_cons, if_neg ha] at hx
      exact absurd hx (by simp)

lemma jsTrim_padded (s pre post : List Char)
    (hpre : ∀ c ∈ pre, jsIsSpace c = true)
    (hpost : ∀ c ∈ post, jsIsSpace c = true) :
    jsTrim (pre ++ s ++ post) = jsTrim s := by
  unfold jsTrim
  rw [List.append_assoc, dropWhile_append_all jsIsSpace pre (s ++ post) hpre]
  by_cases hd : List.dropWhile jsIsSpace s = []
  · rw [dropWhile_append_of_nil jsIsSpace s post hd, hd,
      dropWhile_all_nil jsIsSpace post hpost]
  · rw [dropWhile_append_of_ne_nil jsIsSpace s post hd, List.reverse_append]
    rw [dropWhile_append_all jsIsSpace post.reverse
      (List.dropWhile jsIsSpace s).reverse
      (fun c hc => hpost c (List.mem_reverse.mp hc))]

lemma jsLower_padded_variant (s sv pre post : List Char)
    (hv : jsLower sv = jsLower s)
    (hpre : ∀ c ∈ pre, jsIsSpace c = true)
    (hpost : ∀ c ∈ post, jsIsSpace c = true) :
    jsTrim (jsLower (pre ++ sv ++ post)) = jsTrim (jsLower s) := by
  unfold jsLower
  rw [List.map_append, List.map_append]
  have hpre2 : ∀ c ∈ pre.map Char.toLower, jsIsSpace c = true := by
    intro c hc
    rcases List.mem_map.mp hc with ⟨c0, hc0, rfl⟩
    exact jsIsSpace_toLower c0 (hpre c0 hc0)
  have hpost2 : ∀ c ∈ post.map Char.toLower, jsIsSpace c = true := by
    intro c hc
    rcases List.mem_map.mp hc with ⟨c0, hc0, rfl⟩
    exact jsIsSpace_toLower c0 (hpost c0 hc0)
  rw [jsTrim_padded (sv.map Char.toLower) (pre.map Char.toLower)
    (post.map Char.toLower) hpre2 hpost2]
  have hv2 : sv.map Char.toLower = s.map Char.toLower := hv
  rw [hv2]

/-! ## Helper lemmas about the grid update entry point -/

lemma gridUpdateLayout_clean (e : GridPanelLayoutEngine) (n : GridNode)
    (h : n.layoutDirty = false) :
    GridPanelLayoutEngine.updateLayout e n = (e, n, none) := by
  unfold GridPanelLayoutEngine.updateLayout
  simp [h]

lemma gridUpdateLayout_dirty_err (e : GridPanelLayoutEngine) (n : GridNode)
    (err : GridError) (h : n.layoutDirty = true)
    (hc : (GridPanelLayoutEngine._updateCellsList e n).2 = some err) :
    GridPanelLayoutEngine.updateLayout e n =
      ((GridPanelLayoutEngine._updateCellsList e n).1, n, some err) := by
  unfold GridPanelLayoutEngine.updateLayout
  rcases hp : GridPanelLayoutEngine._updateCellsList e n with ⟨e2, r⟩
  rw [hp] at hc
  simp only at hc
  subst hc
  simp [h, hp]

lemma gridUpdateLayout_dirty_ok (e : GridPanelLayoutEngine) (n : GridNode)
    (h : n.layoutDirty = true)
    (hc : (GridPanelLayoutEngine._updateCellsList e n).2 = none) :
    GridPanelLayoutEngine.updateLayout e n =
      ((GridPanelLayoutEngine._updateCellsList e n).1,
        { n with layoutDirty := false }, none) := by
  unfold GridPanelLayoutEngine.updateLayout
  rcases hp : GridPanelLayoutEngine._updateCellsList e n with ⟨e2, r⟩
  rw [hp] at hc
  simp only at hc
  subst hc
  simp [h, hp]

/-! ## Claim theorems -/

/-- Claim C10: the base-class default `LayoutEngineBase.updateLayout` leaves
the node entirely unchanged — it writes no child's `layoutArea` or
`layoutAreaPos` and, unlike the concrete strategies, does not clear the
layout-dirty flag, so iterating it any number of times on a node of any of
the three node shapes returns the node as is, with its dirty flag exactly
as before (in particular still set if it was set). -/
theorem base_updateLayout_identity :
    ∀ (e : LayoutEngineBase),
      (∀ (n : CanvasNode) (k : Nat), (LayoutEngineBase.updateLayout e)^[k] n = n) ∧
      (∀ (n : StackNode) (k : Nat),
        (LayoutEngineBase.updateLayout e)^[k] n = n ∧
        ((LayoutEngineBase.updateLayout e)^[k] n).layoutDirty = n.layoutDirty) ∧
      (∀ (n : GridNode) (k : Nat), (LayoutEngineBase.updateLayout e)^[k] n = n) := by
  intro e
  have h : ∀ (α : Type) (n : α) (k : Nat), (LayoutEngineBase.updateLayout e)^[k] n = n := by
    intro α n k
    have hid : LayoutEngineBase.updateLayout (α := α) e = id := rfl
    rw [hid, Function.iterate_id, id]
  exact ⟨fun n k => h _ n k,
    fun n k => ⟨h _ n k, by rw [h _ n k]⟩,
    fun n k => h _ n k⟩

/-- Claim C4: on a fresh `LayoutEngineBase` instance `isLocked` is false,
the first `lock()` call returns true and transitions the instance to
locked, any `lock()` call leaves the instance locked afterwards, and a
`lock()` call on an already locked instance returns false and changes
nothing. -/
theorem lock_one_way_transition :
    (LayoutEngineBase.mkNew.isLocked = false) ∧
    (LayoutEngineBase.mkNew.lock.1 = true) ∧
    (LayoutEngineBase.mkNew.lock.2.isLocked = true) ∧
    (∀ e : LayoutEngineBase, e.lock.2.isLocked = true) ∧
    (∀ e : LayoutEngineBase, e.isLocked = true → e.lock = (false, e)) := by
  refine ⟨rfl, rfl, rfl, ?_, ?_⟩
  · intro e
    unfold LayoutEngineBase.lock LayoutEngineBase.isLocked
    by_cases h : e._isLocked = true <;> simp [h]
  · intro e he
    unfold LayoutEngineBase.isLocked at he
    unfold LayoutEngineBase.lock
    simp [he]

/-- Witness for C4: locking a freshly locked instance returns false and
leaves it unchanged. -/
theorem lock_one_way_transition_check :
    (LayoutEngineBase.mkNew.lock.2.isLocked = true) ∧
    (LayoutEngineBase.mkNew.lock.2.lock = (false, LayoutEngineBase.mkNew.lock.2)) :=
  ⟨by decide, lock_one_way_transition.2.2.2.2 LayoutEngineBase.mkNew.lock.2 (by decide)⟩

/-- Claim C5: assigning the `isHorizontal` configuration property of a
locked `StackPanelLayoutEngine` changes nothing and returns normally (the
mutation is silently dropped), while on an unlocked instance the assignment
stores the new value. -/
theorem isHorizontal_setter_locked_behavior :
    (∀ (e : StackPanelLayoutEngine) (v : Bool),
        e.toLayoutEngineBase.isLocked = true → e.setIsHorizontal v = e) ∧
    (∀ (e : StackPanelLayoutEngine) (v : Bool),
        e.toLayoutEngineBase.isLocked = false → (e.setIsHorizontal v).isHorizontal = v) := by
  constructor
  · intro e v h
    unfold StackPanelLayoutEngine.setIsHorizontal
    simp [h]
  · intro e v h
    unfold StackPanelLayoutEngine.setIsHorizontal
    simp [h, StackPanelLayoutEngine.isHorizontal]

/-- Witness for C5: a locked horizontal instance keeps `isHorizontal = true`
after an attempted assignment to false; an unlocked instance stores false. -/
theorem isHorizontal_setter_locked_behavior_check :
    (StackPanelLayoutEngine.mkNew.lock.2.toLayoutEngineBase.isLocked = true) ∧
    (StackPanelLayoutEngine.mkNew.lock.2.setIsHorizontal false
      = StackPanelLayoutEngine.mkNew.lock.2) ∧
    (StackPanelLayoutEngine.mkNew.toLayoutEngineBase.isLocked = false) ∧
    ((StackPanelLayoutEngine.mkNew.setIsHorizontal false).isHorizontal = false) :=
  ⟨by decide,
   isHorizontal_setter_locked_behavior.1 StackPanelLayoutEngine.mkNew.lock.2 false (by decide),
   by decide,
   isHorizontal_setter_locked_behavior.2 StackPanelLayoutEngine.mkNew false (by decide)⟩

/-- Claim C9: the static accessors `StackPanelLayoutEngine.Horizontal` and
`StackPanelLayoutEngine.Vertical` return, on a second access, the very
instance stored by the first access with the static state unchanged
(reference equality of repeated reads), and the returned instance is
locked, with `isHorizontal` true for `Horizontal` and false for
`Vertical`. -/
theorem stack_singleton_accessors :
    (StackPanelLayoutEngine.Horizontal
        (StackPanelLayoutEngine.Horizontal StackPanelStatics.initial).2
      = StackPanelLayoutEngine.Horizontal StackPanelStatics.initial) ∧
    ((StackPanelLayoutEngine.Horizontal StackPanelStatics.initial).1.toLayoutEngineBase.isLocked
      = true) ∧
    ((StackPanelLayoutEngine.Horizontal StackPanelStatics.initial).1.isHorizontal = true) ∧
    (StackPanelLayoutEngine.Vertical
        (StackPanelLayoutEngine.Vertical StackPanelStatics.initial).2
      = StackPanelLayoutEngine.Vertical StackPanelStatics.initial) ∧
    ((StackPanelLayoutEngine.Vertical StackPanelStatics.initial).1.toLayoutEngineBase.isLocked
      = true) ∧
    ((StackPanelLayoutEngine.Vertical StackPanelStatics.initial).1.isHorizontal = false) :=
  ⟨rfl, rfl, rfl, rfl, rfl, rfl⟩

/-- Claim C1: for each concrete strategy, after a successful `updateLayout`
call the node's layout-dirty flag is false (for the grid strategy, success
means no exception escaped, i.e. the error component is `none`), and a call
on a node whose flag is already clear is a no-op returning the node (and,
for the grid strategy, the engine) unchanged, so the call is idempotent. -/
theorem updateLayout_clears_dirty_and_clean_is_noop :
    (∀ (oas : Size) (n : CanvasNode),
        (CanvasLayoutEngine.updateLayout oas n).layoutDirty = false) ∧
    (∀ (oas : Size) (n : CanvasNode),
        n.layoutDirty = false → CanvasLayoutEngine.updateLayout oas n = n) ∧
    (∀ (e : StackPanelLayoutEngine) (n : StackNode),
        (StackPanelLayoutEngine.updateLayout e n).layoutDirty = false) ∧
    (∀ (e : StackPanelLayoutEngine) (n : StackNode),
        n.layoutDirty = false → StackPanelLayoutEngine.updateLayout e n = n) ∧
    (∀ (e : GridPanelLayoutEngine) (n : GridNode),
        (GridPanelLayoutEngine.updateLayout e n).2.2 = none →
        (GridPanelLayoutEngine.updateLayout e n).2.1.layoutDirty = false) ∧
    (∀ (e : GridPanelLayoutEngine) (n : GridNode),
        n.layoutDirty = false → GridPanelLayoutEngine.updateLayout e n = (e, n, none)) := by
  refine ⟨?_, ?_, ?_, ?_, ?_, ?_⟩
  · intro oas n
    unfold CanvasLayoutEngine.updateLayout
    by_cases h : n.layoutDirty = true
    · simp [h]
    · have h2 : n.layoutDirty = false := by simpa using h
      simp [h2]
  · intro oas n h
    unfold CanvasLayoutEngine.updateLayout
    simp [h]
  · intro e n
    unfold StackPanelLayoutEngine.updateLayout
    by_cases h : n.layoutDirty = true
    · simp [h]
    · have h2 : n.layoutDirty = false := by simpa using h
      simp [h2]
  · intro e n h
    unfold StackPanelLayoutEngine.updateLayout
    simp [h]
  · intro e n hok
    by_cases h : n.layoutDirty = true
    · rcases hc : (GridPanelLayoutEngine._updateCellsList e n).2 with _ | err
      · rw [gridUpdateLayout_dirty_ok e n h hc]
      · rw [gridUpdateLayout_dirty_err e n err h hc] at hok
        simp at hok
    · have h2 : n.layoutDirty = false := by simpa using h
      rw [gridUpdateLayout_clean e n h2]
      exact h2
  · intro e n h
    exact gridUpdateLayout_clean e n h

/-- Witness for C1: concrete checks — a clean node is returned unchanged by
each strategy, and a successful dirty grid update ends with the flag
clear. -/
theorem updateLayout_clears_dirty_and_clean_is_noop_check :
    ((⟨false, ⟨5, 5⟩, ⟨4, 4⟩, false, [⟨false, ⟨1, 1⟩, ⟨2, 2⟩⟩]⟩ : CanvasNode).layoutDirty
      = false) ∧
    (CanvasLayoutEngine.updateLayout ⟨9, 9⟩
        ⟨false, ⟨5, 5⟩, ⟨4, 4⟩, false, [⟨false, ⟨1, 1⟩, ⟨2, 2⟩⟩]⟩
      = ⟨false, ⟨5, 5⟩, ⟨4, 4⟩, false, [⟨false, ⟨1, 1⟩, ⟨2, 2⟩⟩]⟩) ∧
    ((⟨false, []⟩ : StackNode).layoutDirty = false) ∧
    (StackPanelLayoutEngine.updateLayout StackPanelLayoutEngine.mkNew
        (⟨false, []⟩ : StackNode) = (⟨false, []⟩ : StackNode)) ∧
    ((GridPanelLayoutEngine.updateLayout
        (GridPanelLayoutEngine.mkNew [String.toList "100"] [String.toList "2*"])
        ⟨true, ⟨10, 10⟩,
          [⟨some (PrimitiveGridInfo.mkNew 0 0 none none), ⟨1, 1⟩, ⟨2, 2⟩, ⟨0, 0⟩⟩]⟩).2.2
      = none) ∧
    ((GridPanelLayoutEngine.updateLayout
        (GridPanelLayoutEngine.mkNew [String.toList "100"] [String.toList "2*"])
        ⟨true, ⟨10, 10⟩,
          [⟨some (PrimitiveGridInfo.mkNew 0 0 none none), ⟨1, 1⟩, ⟨2, 2⟩, ⟨0, 0⟩⟩]⟩).2.1.layoutDirty
      = false) :=
  ⟨rfl,
   updateLayout_clears_dirty_and_clean_is_noop.2.1 ⟨9, 9⟩
     ⟨false, ⟨5, 5⟩, ⟨4, 4⟩, false, [⟨false, ⟨1, 1⟩, ⟨2, 2⟩⟩]⟩ rfl,
   rfl,
   updateLayout_clears_dirty_and_clean_is_noop.2.2.2.1 StackPanelLayoutEngine.mkNew
     ⟨false, []⟩ rfl,
   by decide,
   updateLayout_clears_dirty_and_clean_is_noop.2.2.2.2.1
     (GridPanelLayoutEngine.mkNew [String.toList "100"] [String.toList "2*"])
     ⟨true, ⟨10, 10⟩, [⟨some (PrimitiveGridInfo.mkNew 0 0 none none), ⟨1, 1⟩, ⟨2, 2⟩, ⟨0, 0⟩⟩]⟩
     (by decide)⟩

/-- Claim C6: after `CanvasLayoutEngine.updateLayout` on a dirty node, each
node laid out by the call (the direct children of the node) has: its own
`actualSize` as layout area if it is the root canvas (the is-canvas branch
of `_doUpdate`), the root's `actualSize` if it is a direct child of the
root canvas (the owner of a canvas' children being that canvas, its actual
size is the root's), and the immediate parent's `contentArea` for every
deeper descendant. -/
theorem canvas_updateLayout_area_assignment (ownerActualSize : Size) (n : CanvasNode)
    (hdirty : n.layoutDirty = true)
    (howner : n.isCanvas = true → ownerActualSize = n.actualSize) :
    ∀ c ∈ (CanvasLayoutEngine.updateLayout ownerActualSize n).children,
      (c.isCanvas = true → c.layoutArea = c.actualSize) ∧
      (c.isCanvas = false → n.isCanvas = true → c.layoutArea = n.actualSize) ∧
      (c.isCanvas = false → n.isCanvas = false → c.layoutArea = n.contentArea) := by
  intro c hc
  unfold CanvasLayoutEngine.updateLayout at hc
  rw [if_pos hdirty] at hc
  simp only [List.mem_map] at hc
  obtain ⟨c0, hc0, rfl⟩ := hc
  unfold CanvasLayoutEngine._doUpdate
  by_cases h1 : c0.isCanvas = true
  · simp [h1]
  · have h1f : c0.isCanvas = false := by simpa using h1
    by_cases h2 : n.isCanvas = true
    · simp [h1f, h2, howner h2]
    · have h2f : n.isCanvas = false := by simpa using h2
      simp [h1f, h2f]

/-- Witness for C6: a dirty root canvas of actual size 100 by 50 with one
ordinary child; after layout the child's layout area is the root's actual
size. -/
theorem canvas_updateLayout_area_assignment_check :
    ((⟨true, ⟨100, 50⟩, ⟨90, 40⟩, true, [⟨false, ⟨10, 10⟩, ⟨0, 0⟩⟩]⟩ : CanvasNode).layoutDirty
      = true) ∧
    (∀ c ∈ (CanvasLayoutEngine.updateLayout ⟨100, 50⟩
        (⟨true, ⟨100, 50⟩, ⟨90, 40⟩, true, [⟨false, ⟨10, 10⟩, ⟨0, 0⟩⟩]⟩ : CanvasNode)).children,
      (c.isCanvas = true → c.layoutArea = c.actualSize) ∧
      (c.isCanvas = false →
        (⟨true, ⟨100, 50⟩, ⟨90, 40⟩, true, [⟨false, ⟨10, 10⟩, ⟨0, 0⟩⟩]⟩ : CanvasNode).isCanvas
          = true →
        c.layoutArea
          = (⟨true, ⟨100, 50⟩, ⟨90, 40⟩, true, [⟨false, ⟨10, 10⟩, ⟨0, 0⟩⟩]⟩ : CanvasNode).actualSize) ∧
      (c.isCanvas = false →
        (⟨true, ⟨100, 50⟩, ⟨90, 40⟩, true, [⟨false, ⟨10, 10⟩, ⟨0, 0⟩⟩]⟩ : CanvasNode).isCanvas
          = false →
        c.layoutArea
          = (⟨true, ⟨100, 50⟩, ⟨90, 40⟩, true, [⟨false, ⟨10, 10⟩, ⟨0, 0⟩⟩]⟩ : CanvasNode).contentArea)) :=
  ⟨rfl,
   canvas_updateLayout_area_assignment ⟨100, 50⟩
     ⟨true, ⟨100, 50⟩, ⟨90, 40⟩, true, [⟨false, ⟨10, 10⟩, ⟨0, 0⟩⟩]⟩ rfl (fun _ => rfl)⟩

/-- Claim C3: grid dimension-string parsing maps `"100"` to the Pixels kind
with value and resolved pixels 100, `"2*"` to the Stars kind with value 2,
and `"Auto"` to the Auto kind; and for every input string, any
whitespace-padded, case-changed variant parses to the same result as the
original (hence as its trimmed lower-case form), since the parser first
lower-cases and trims its input. -/
theorem grid_dimension_parse_cases_and_normalization :
    (GridDimensionDefinition._parse (String.toList "100")
      = ⟨some 100, some 100, GridDimensionDefinition.Pixels⟩) ∧
    (GridDimensionDefinition._parse (String.toList "2*")
      = ⟨some 2, none, GridDimensionDefinition.Stars⟩) ∧
    (GridDimensionDefinition._parse (String.toList "Auto")
      = ⟨none, none, GridDimensionDefinition.Auto⟩) ∧
    (∀ (s sv pre post : List Char),
      jsLower sv = jsLower s →
      (∀ c ∈ pre, jsIsSpace c = true) →
      (∀ c ∈ post, jsIsSpace c = true) →
      GridDimensionDefinition._parse (pre ++ sv ++ post)
        = GridDimensionDefinition._parse s) := by
  refine ⟨by decide, by decide, by decide, ?_⟩
  intro s sv pre post hv hpre hpost
  unfold GridDimensionDefinition._parse
  rw [jsLower_padded_variant s sv pre post hv hpre hpost]

/-- Witness for C3: the padded mixed-case `"  AUTO "` parses exactly as
`"auto"`. -/
theorem grid_dimension_parse_cases_and_normalization_check :
    (jsLower (String.toList "AUTO") = jsLower (String.toList "auto")) ∧
    (∀ c ∈ [' ', ' '], jsIsSpace c = true) ∧
    (∀ c ∈ [' '], jsIsSpace c = true) ∧
    (GridDimensionDefinition._parse ([' ', ' '] ++ String.toList "AUTO" ++ [' '])
      = GridDimensionDefinition._parse (String.toList "auto")) :=
  ⟨by decide, by decide, by decide,
   grid_dimension_parse_cases_and_normalization.2.2.2 (String.toList "auto")
     (String.toList "AUTO") [' ', ' '] [' '] (by decide) (by decide) (by decide)⟩

/-! ## Claim C2: horizontal stack placement -/

lemma stackUpdateLayout_dirty_true (e : StackPanelLayoutEngine) (n : StackNode)
    (he : e.isHorizontal = true) (hd : n.layoutDirty = true) :
    StackPanelLayoutEngine.updateLayout e n =
      { n with
          children := StackPanelLayoutEngine.placeChildren true
            (((n.children.map StackChild.measure).map
                (fun c => c.layoutArea.height)).foldl max 0)
            0 0 (n.children.map StackChild.measure),
          layoutDirty := false } := by
  unfold StackPanelLayoutEngine.updateLayout
  rw [if_pos hd, he, List.foldl_map]
  rfl

/-- Conclusion of claim C2, as a predicate relating the node `n` passed to
a horizontal stack `updateLayout` call and the resulting node `r`: child 0
sits at x = 0, each subsequent child at the previous child's x plus the
previous child's resulting layout-area width, every y component is 0, each
child keeps its margin-adjusted width, and every child's resulting height
is the maximum of the margin-adjusted heights. -/
def stackHorizontalOutcome (n r : StackNode) : Prop :=
  r.children.length = n.children.length ∧
  (∀ (h0 : 0 < r.children.length), (r.children.get ⟨0, h0⟩).layoutAreaPos.x = 0) ∧
  (∀ (i : Nat) (hi1 : i + 1 < r.children.length) (hi : i < r.children.length),
    (r.children.get ⟨i + 1, hi1⟩).layoutAreaPos.x
      = (r.children.get ⟨i, hi⟩).layoutAreaPos.x
        + (r.children.get ⟨i, hi⟩).layoutArea.width) ∧
  (∀ c ∈ r.children, c.layoutAreaPos.y = 0) ∧
  (∀ (i : Nat) (hi : i < r.children.length)
      (hm : i < (n.children.map StackChild.measure).length),
    (r.children.get ⟨i, hi⟩).layoutArea.width
      = ((n.children.map StackChild.measure).get ⟨i, hm⟩).layoutArea.width) ∧
  (∃ M, M ∈ (n.children.map StackChild.measure).map (fun c => c.layoutArea.height) ∧
    (∀ q ∈ (n.children.map StackChild.measure).map (fun c => c.layoutArea.height), q ≤ M) ∧
    (∀ c ∈ r.children, c.layoutArea.height = M))

/-- Claim C2: for a horizontal stack engine applied to a dirty node with at
least one child whose margin-adjusted heights are nonnegative (sizes), the
resulting children satisfy the stacking equations: x positions accumulate
the margin-adjusted widths starting at 0, y positions are 0, widths are the
margin-adjusted widths, and every height is the maximum margin-adjusted
height. -/
theorem stack_horizontal_updateLayout_positions_and_heights
    (e : StackPanelLayoutEngine) (n : StackNode)
    (he : e.isHorizontal = true)
    (hd : n.layoutDirty = true)
    (hne : 0 < n.children.length)
    (hnn : ∀ q ∈ (n.children.map StackChild.measure).map
        (fun c => c.layoutArea.height), 0 ≤ q) :
    stackHorizontalOutcome n (StackPanelLayoutEngine.updateLayout e n) := by
  rw [stackUpdateLayout_dirty_true e n he hd]
  unfold stackHorizontalOutcome
  dsimp only
  set ms := n.children.map StackChild.measure with hms
  set hs := ms.map (fun c => c.layoutArea.height) with hhs
  set M0 := hs.foldl max 0 with hM0
  have hlen : ms.length = n.children.length := by rw [hms, List.length_map]
  have hslen : hs.length = ms.length := by rw [hhs, List.length_map]
  have hub : ∀ q ∈ hs, q ≤ M0 := fun q hq => foldlMax_mem_le hs 0 q hq
  have hmem : M0 ∈ hs := by
    rcases foldlMax_eq_or_mem hs 0 with h | h
    · have hs_ne : hs ≠ [] := by
        intro hnil
        rw [hnil] at hslen
        rw [hlen] at hslen
        exact absurd hslen.symm (Nat.ne_of_gt hne)
      obtain ⟨q0, hq0⟩ := List.exists_mem_of_ne_nil hs hs_ne
      have h1 : q0 ≤ M0 := hub q0 hq0
      have h2 : M0 ≤ q0 := by rw [hM0, h]; exact hnn q0 hq0
      rwa [le_antisymm h2 h1]
    · exact h
  refine ⟨?_, ?_, ?_, ?_, ?_, ?_⟩
  · rw [placeChildren_true_length, hlen]
  · intro h0
    have hm0 : 0 < ms.length := by rwa [placeChildren_true_length] at h0
    rw [placeChildren_true_get ms M0 0 0 0 hm0 h0]
    simp [sumWidths]
  · intro i hi1 hi
    have hmi1 : i + 1 < ms.length := by rwa [placeChildren_true_length] at hi1
    have hmi : i < ms.length := by rwa [placeChildren_true_length] at hi
    rw [placeChildren_true_get ms M0 0 0 (i + 1) hmi1 hi1,
      placeChildren_true_get ms M0 0 0 i hmi hi]
    dsimp only
    rw [sumWidths_take_succ ms i hmi]
    ring
  · intro c hc
    rcases List.mem_iff_get.mp hc with ⟨⟨i, hi⟩, hgi⟩
    have hmi : i < ms.length := by rwa [placeChildren_true_length] at hi
    rw [← hgi, placeChildren_true_get ms M0 0 0 i hmi hi]
  · intro i hi hm
    rw [placeChildren_true_get ms M0 0 0 i hm hi]
  · refine ⟨M0, hmem, hub, ?_⟩
    intro c hc
    rcases List.mem_iff_get.mp hc with ⟨⟨i, hi⟩, hgi⟩
    have hmi : i < ms.length := by rwa [placeChildren_true_length] at hi
    rw [← hgi, placeChildren_true_get ms M0 0 0 i hmi hi]

/-- Margin collaborator whose computeArea adopts the actual size unchanged
(a zero margin), used as a concrete external margin. -/
def marginKeep : Margin := ⟨fun sourceSize _ => sourceSize⟩

/-- Example node for the stack claims: dirty, two children of actual sizes
50 by 20 and 30 by 40 under a zero margin. -/
def stackExampleNode : StackNode :=
  ⟨true, [⟨⟨50, 20⟩, ⟨0, 0⟩, ⟨9, 9⟩, marginKeep⟩,
          ⟨⟨30, 40⟩, ⟨0, 0⟩, ⟨9, 9⟩, marginKeep⟩]⟩

/-- Witness for C2: on the two-child example the hypotheses hold and the
claimed stacking equations follow; concretely the children end at
positions (0,0) and (50,0) with sizes 50 by 40 and 30 by 40. -/
theorem stack_horizontal_updateLayout_positions_and_heights_check :
    (StackPanelLayoutEngine.mkNew.isHorizontal = true) ∧
    (stackExampleNode.layoutDirty = true) ∧
    (0 < stackExampleNode.children.length) ∧
    (∀ q ∈ (stackExampleNode.children.map StackChild.measure).map
        (fun c => c.layoutArea.height), 0 ≤ q) ∧
    stackHorizontalOutcome stackExampleNode
      (StackPanelLayoutEngine.updateLayout StackPanelLayoutEngine.mkNew stackExampleNode) ∧
    ((StackPanelLayoutEngine.updateLayout StackPanelLayoutEngine.mkNew
        stackExampleNode).children.map
      (fun c => (c.layoutAreaPos.x, c.layoutAreaPos.y,
        c.layoutArea.width, c.layoutArea.height))
      = [(0, 0, 50, 40), (50, 0, 30, 40)]) :=
  ⟨rfl, rfl, by decide, by decide,
   stack_horizontal_updateLayout_positions_and_heights StackPanelLayoutEngine.mkNew
     stackExampleNode rfl rfl (by decide) (by decide),
   by decide⟩

/-! ## Claims C7 and C8: grid layout behaviour -/

/-- Example 1 by 1 grid engine: one 100-pixel row and one 100-pixel
column. -/
def gridExampleEngine : GridPanelLayoutEngine :=
  GridPanelLayoutEngine.mkNew [String.toList "100"] [String.toList "100"]

/-- Example dirty grid node: one child correctly carrying grid placement
(0, 0), with recognizable pre-existing layout fields (layout area 3 by 4 at
position (5, 6)). -/
def gridExampleNode : GridNode :=
  ⟨true, ⟨100, 100⟩,
    [⟨some (PrimitiveGridInfo.mkNew 0 0 none none), ⟨10, 10⟩, ⟨3, 4⟩, ⟨5, 6⟩⟩]⟩

/-- Claim C7 (evaluation of the code at the failing input): on a well
formed dirty 1 by 1 grid with one correctly placed child, `updateLayout`
succeeds and clears the dirty flag, yet the child's `layoutArea` and
`layoutAreaPos` are exactly as before the call — the source never assigns
them (the cell lookup result is discarded and the unit totals are computed
and dropped), contradicting the claim that each child's layout fields are
assigned from its grid cell. -/
theorem grid_updateLayout_writes_no_child_layout :
    ((GridPanelLayoutEngine.updateLayout gridExampleEngine gridExampleNode).2.2 = none) ∧
    ((GridPanelLayoutEngine.updateLayout gridExampleEngine gridExampleNode).2.1.layoutDirty
      = false) ∧
    ((GridPanelLayoutEngine.updateLayout gridExampleEngine gridExampleNode).2.1.children
      = gridExampleNode.children) := by
  decide

/-- Example dirty grid node whose only child lacks the `"grid"` entry of
the external data store. -/
def gridMissingNode : GridNode :=
  ⟨true, ⟨100, 100⟩, [⟨none, ⟨10, 10⟩, ⟨3, 4⟩, ⟨5, 6⟩⟩]⟩

/-- Counterexample for C8: when a child lacks the `"grid"` placement entry,
the failure is not absorbed by the engine — the call's outcome is the
thrown exception itself (error component `some`), i.e. the error does
escape the `updateLayout` boundary uncaught, contrary to the claim's
"never thrown past the engine boundary uncaught". -/
theorem grid_missing_placement_error_escapes :
    ((GridPanelLayoutEngine.updateLayout gridExampleEngine gridMissingNode).2.2
      = some GridError.nullGridData) ∧
    ¬ ((GridPanelLayoutEngine.updateLayout gridExampleEngine gridMissingNode).2.2
      = none) := by
  decide

/-- Claim C8 as amended: whenever a grid `updateLayout` call fails (an
error escapes as the call's outcome), the node is returned unchanged with
its layout-dirty flag still set; the failure reaches the caller as the
thrown error itself, the engine installing no handler, rather than as an
absorbed per-node report. -/
theorem grid_update_failure_leaves_node_dirty (e : GridPanelLayoutEngine) (n : GridNode)
    (err : GridError)
    (h : (GridPanelLayoutEngine.updateLayout e n).2.2 = some err) :
    (GridPanelLayoutEngine.updateLayout e n).2.1 = n ∧ n.layoutDirty = true := by
  by_cases hd : n.layoutDirty = true
  · rcases hc : (GridPanelLayoutEngine._updateCellsList e n).2 with _ | er
    · rw [gridUpdateLayout_dirty_ok e n hd hc] at h
      simp at h
    · rw [gridUpdateLayout_dirty_err e n er hd hc]
      exact ⟨rfl, hd⟩
  · have hf : n.layoutDirty = false := by simpa using hd
    rw [gridUpdateLayout_clean e n hf] at h
    simp at h

/-- Witness for the amended C8: the concrete failing call leaves the node
unchanged and dirty. -/
theorem grid_update_failure_leaves_node_dirty_check :
    ((GridPanelLayoutEngine.updateLayout gridExampleEngine gridMissingNode).2.2
      = some GridError.nullGridData) ∧
    ((GridPanelLayoutEngine.updateLayout gridExampleEngine gridMissingNode).2.1
      = gridMissingNode ∧ gridMissingNode.layoutDirty = true) :=
  ⟨by decide,
   grid_update_failure_leaves_node_dirty gridExampleEngine gridMissingNode
     GridError.nullGridData (by decide)⟩
